import Mathlib

/-!
Verification development for the PySyft TrainConfig tutorial
(`examples/tutorials/advanced/Federated Learning with TrainConfig/Introduction
to TrainConfig.ipynb`).

The notebook is the only source file; the syft library it drives (the
`TrainConfig` class, `WebsocketClientWorker`, the worker's `fit`) is not part
of the source tree, so those parts are modelled from the specification's
description of the coordination protocol.  Recorded cell outputs of the
notebook (loss values, predictions, the xor dataset of `start_worker.py`)
are embedded as concrete data.  Floats are modelled as rationals.
-/

namespace PySyftTrainConfig

/-- Modelled from the spec: a serialized, platform-independent model reference
("weights + architecture"); we keep the trainable parameters as the payload. -/
abbrev Model := List ℚ

/-- Modelled from the spec: a serialized loss-function reference, an opaque
blob on the coordination layer (the worker's executor interprets it). -/
abbrev LossFn := String

/-- The dataset shape of `start_worker.py` as printed in the notebook:
`sy.BaseDataset(data, target)`. -/
structure BaseDataset where
  data : List (List ℚ)
  target : List (List ℚ)
deriving DecidableEq

/-- The toy xor data set up by `start_worker.main` (notebook cell 2 output):
`data = [[0,1],[1,0],[1,1],[0,0]]`, `target = [[1],[1],[0],[0]]`. -/
def xorDataset : BaseDataset :=
  { data := [[0, 1], [1, 0], [1, 1], [0, 0]]
    target := [[1], [1], [0], [0]] }

/-- Modelled from the spec: the TrainConfig value object — model reference,
loss-function reference, optimizer kind, and the hyperparameters
batch_size, lr, epochs, max_nr_batches, shuffle.  The hyperparameter fields
are deliberately unconstrained integers/rationals: construction performs no
deep validation. -/
structure TrainConfig where
  model : Model
  loss_fn : LossFn
  optimizer : String
  batch_size : ℤ
  lr : ℚ
  epochs : ℤ
  max_nr_batches : ℤ
  shuffle : Bool
deriving DecidableEq

/-- Modelled from the spec: TrainConfig construction (the `sy.TrainConfig`
class is not in the source tree).  It validates only that the required
fields — the serialized model and loss function — are present; every
hyperparameter value is accepted unchanged; `max_nr_batches` may be
omitted and then defaults to the sentinel `-1` (the value the notebook
comments "not used in this example"). -/
def TrainConfig.create (model : Option Model) (lossFn : Option LossFn)
    (optimizer : String) (batchSize : ℤ) (lr : ℚ) (epochs : ℤ)
    (maxNrBatches : Option ℤ) (shuffle : Bool) : Option TrainConfig :=
  match model, lossFn with
  | some m, some l =>
      some { model := m, loss_fn := l, optimizer := optimizer,
             batch_size := batchSize, lr := lr, epochs := epochs,
             max_nr_batches := maxNrBatches.getD (-1), shuffle := shuffle }
  | _, _ => none

/-- Modelled from the spec: the cap on training steps per fit call;
the negative sentinel (`max_nr_batches = -1` in the notebook) disables it. -/
def TrainConfig.batchCap (tc : TrainConfig) : Option ℤ :=
  if tc.max_nr_batches < 0 then none else some tc.max_nr_batches

/-- A connection failure raised when constructing the websocket client proxy
towards an endpoint where no worker is running. -/
structure ConnectionError where
  host : String
  port : ℕ
deriving DecidableEq

/-- The coordinator-side websocket client proxy, as configured at the
notebook's call site: `kwargs_websocket = {"host": "localhost", "hook": hook,
"verbose": False}` and `WebsocketClientWorker(id="alice", port=8777,
**kwargs_websocket)`.  The hook is kept as an opaque reference. -/
structure WebsocketClientWorker where
  host : String
  hook : String
  verbose : Bool
  id : String
  port : ℕ
deriving DecidableEq

/-- Modelled from the spec: constructing the websocket client proxy performs
the single connection step to (host, port); if no worker is running there the
connection failure is returned to the caller directly — there is no retry and
no fallback path. -/
def mkWebsocketClientWorker (running : String → ℕ → Bool) (host : String)
    (hook : String) (verbose : Bool) (id : String) (port : ℕ) :
    Except ConnectionError WebsocketClientWorker :=
  if running host port then
    Except.ok { host := host, hook := hook, verbose := verbose, id := id, port := port }
  else
    Except.error { host := host, port := port }

/-- The keyword-option names of `kwargs_websocket` as written in the
notebook: `{"host": ..., "hook": ..., "verbose": ...}`. -/
def kwargs_websocket : List String := ["host", "hook", "verbose"]

/-- All option names the notebook passes when opening the connection:
`WebsocketClientWorker(id="alice", port=8777, **kwargs_websocket)`. -/
def websocketClientCallOptions : List String := ["id", "port"] ++ kwargs_websocket

/-- The four option names the spec sentence recognizes:
`{host, port, id, verbose}`. -/
def claimedConnectionOptions : List String := ["host", "port", "id", "verbose"]

/-- The option set the call site actually uses: the claimed four plus the
framework hook reference. -/
def amendedConnectionOptions : List String := ["host", "port", "id", "verbose", "hook"]

/-!
The coordination protocol, modelled from the spec's §2/§4: a Coordinator
builds a TrainConfig, sends it to a Worker (receiving an opaque numeric
proxy handle), repeatedly issues fit requests naming a dataset key (each
returning one scalar loss), and explicitly pulls the updated model back.
The worker-side training dynamics (one fit call's parameter update and the
loss evaluation) are owned by the external deep-learning library, so the
protocol is parametrized by `step` and `evalLoss`.
-/

/-- Modelled from the spec: the Worker — holds named datasets, the stored
TrainConfigs (keyed by the proxy handle allocated at send time), the remote
model state for each handle (mutated in place by fit), and the handle of the
most recently sent config, which fit requests act on. -/
structure WorkerState where
  id : String
  datasets : List (String × BaseDataset)
  configs : List (ℕ × TrainConfig)
  models : List (ℕ × Model)
  activeHandle : Option ℕ
  nextHandle : ℕ

/-- `worker.add_dataset(dataset, key=...)` from `start_worker.py`: registers
a dataset under a string key. -/
def WorkerState.add_dataset (w : WorkerState) (d : BaseDataset) (key : String) :
    WorkerState :=
  { w with datasets := (key, d) :: w.datasets }

/-- A fresh worker with a given id, as spun up by `start_worker.py`. -/
def initWorker (id : String) : WorkerState :=
  { id := id, datasets := [], configs := [], models := [],
    activeHandle := none, nextHandle := 0 }

/-- Everything a worker can address to the coordinator.  The `datasetVal`
constructor exists so that "the dataset is never transmitted" is a statement
about the protocol, not about the message type. -/
inductive Payload where
  | handleVal : ℕ → Payload
  | lossVal : ℚ → Payload
  | modelVal : Model → Payload
  | datasetVal : BaseDataset → Payload
deriving DecidableEq

/-- Whether a coordinator-bound payload carries a dataset. -/
def Payload.isDataset : Payload → Bool
  | .datasetVal _ => true
  | _ => false

/-- Modelled from the spec: the coordinator's accumulated state — proxy
handles, the scalar losses returned by fit calls, explicitly retrieved
models, and (were any ever sent) received datasets. -/
structure CoordState where
  handles : List ℕ
  losses : List ℚ
  retrieved : List Model
  received : List BaseDataset

/-- The coordinator absorbs one payload into its state. -/
def coordAbsorb (c : CoordState) : Payload → CoordState
  | .handleVal h => { c with handles := c.handles ++ [h] }
  | .lossVal q => { c with losses := c.losses ++ [q] }
  | .modelVal m => { c with retrieved := c.retrieved ++ [m] }
  | .datasetVal d => { c with received := c.received ++ [d] }

/-- The coordinator operations the notebook exercises: connect, send a
TrainConfig, `fit(dataset_key=...)`, and `train_config.model_ptr.get()`. -/
inductive Op where
  | connectOp : Op
  | sendConfig : TrainConfig → Op
  | fit : String → Op
  | retrieveModel : ℕ → Op

/-- Whether an operation is the explicit model-retrieval request. -/
def Op.isRetrieve : Op → Bool
  | .retrieveModel _ => true
  | _ => false

/-- Replace the model stored at a handle (in-place mutation of the remote
model state). -/
def updateAssoc (h : ℕ) (m : Model) : List (ℕ × Model) → List (ℕ × Model)
  | [] => []
  | (k, v) :: rest =>
      if k = h then (k, m) :: rest else (k, v) :: updateAssoc h m rest

/-- Modelled from the spec: the worker's handling of one coordinator
operation, returning the new worker state and the payloads sent back.
`sendConfig` stores an immutable copy of the config and the initial model
under a fresh handle and answers with that opaque handle; `fit key` looks up
the dataset and the active model, answers with the scalar loss of the
current (pre-update) model — the notebook's recorded iteration-0 loss equals
its recorded pre-training loss — and then mutates the model in place;
`retrieveModel` answers with the current model at the handle. -/
def workerStep (step : Model → BaseDataset → Model)
    (evalLoss : Model → BaseDataset → ℚ) (w : WorkerState) :
    Op → WorkerState × List Payload
  | .connectOp => (w, [])
  | .sendConfig tc =>
      let h := w.nextHandle
      ({ w with configs := (h, tc) :: w.configs,
                models := (h, tc.model) :: w.models,
                activeHandle := some h,
                nextHandle := h + 1 }, [.handleVal h])
  | .fit key =>
      match w.activeHandle with
      | none => (w, [])
      | some h =>
          match List.lookup key w.datasets, List.lookup h w.models with
          | some d, some m =>
              ({ w with models := updateAssoc h (step m d) w.models },
               [.lossVal (evalLoss m d)])
          | _, _ => (w, [])
  | .retrieveModel h =>
      match List.lookup h w.models with
      | some m => (w, [.modelVal m])
      | none => (w, [])

/-- The joint system state: the worker, the coordinator, and the trace of
all coordinator-bound payloads. -/
structure SysState where
  worker : WorkerState
  coord : CoordState
  trace : List Payload

/-- One synchronous request/response round. -/
def sysStep (step : Model → BaseDataset → Model)
    (evalLoss : Model → BaseDataset → ℚ) (s : SysState) (o : Op) : SysState :=
  let wp := workerStep step evalLoss s.worker o
  { worker := wp.1, coord := wp.2.foldl coordAbsorb s.coord,
    trace := s.trace ++ wp.2 }

/-- Run a sequence of coordinator operations. -/
def runOps (step : Model → BaseDataset → Model)
    (evalLoss : Model → BaseDataset → ℚ) (s : SysState) : List Op → SysState
  | [] => s
  | o :: os => runOps step evalLoss (sysStep step evalLoss s o) os

/-- The initial joint state: a fresh worker holding the given datasets, an
empty coordinator. -/
def initSys (id : String) (ds : List (String × BaseDataset)) : SysState :=
  { worker := { initWorker id with datasets := ds },
    coord := { handles := [], losses := [], retrieved := [], received := [] },
    trace := [] }

/-- `k` successive training updates on a model with a fixed dataset. -/
def trainIter (step : Model → BaseDataset → Model) (d : BaseDataset) :
    ℕ → Model → Model
  | 0, m => m
  | k + 1, m => trainIter step d k (step m d)

/-!
Recorded cell outputs of the notebook, embedded as rationals.
-/

/-- The notebook's "Evaluation before training" output:
`Loss: 0.4933376908302307`. -/
def preTrainingLoss : ℚ := 4933376908302307 / 10 ^ 16

/-- The notebook's "Evaluation after training" output:
`Loss: 0.23460401594638824`. -/
def postTrainingLoss : ℚ := 23460401594638824 / 10 ^ 17

/-- The ten losses returned by the fit loop, as printed (torch's default
four-decimal display): iterations 0..9. -/
def recordedFitLosses : List ℚ :=
  [4933 / 10 ^ 4, 3483 / 10 ^ 4, 2855 / 10 ^ 4, 2623 / 10 ^ 4, 2526 / 10 ^ 4,
   2472 / 10 ^ 4, 2440 / 10 ^ 4, 2410 / 10 ^ 4, 2386 / 10 ^ 4, 2366 / 10 ^ 4]

/-- The pre-training predictions on the xor data, as printed:
`[[0.1258], [-0.0994], [0.0033], [0.0210]]`. -/
def recordedPredsBefore : List (List ℚ) :=
  [[1258 / 10 ^ 4], [-994 / 10 ^ 4], [33 / 10 ^ 4], [210 / 10 ^ 4]]

/-- The predictions of the retrieved post-training model on the same xor
data, as printed: `[[0.6602], [0.3784], [0.4849], [0.4489]]`. -/
def recordedPredsAfter : List (List ℚ) :=
  [[6602 / 10 ^ 4], [3784 / 10 ^ 4], [4849 / 10 ^ 4], [4489 / 10 ^ 4]]

/-- Rounding to torch's default four displayed decimals. -/
def display4 (q : ℚ) : ℚ := (⌊q * 10 ^ 4 + 1 / 2⌋ : ℤ) / 10 ^ 4

/-!
Concrete instances used by the witness theorems.
-/

/-- A concrete stand-in for the external library's per-fit parameter update. -/
def demoStep : Model → BaseDataset → Model := fun m _ => 0 :: m

/-- A concrete stand-in for the external library's loss evaluation. -/
def demoEval : Model → BaseDataset → ℚ := fun m _ => m.headD 0

/-- A concrete serialized model. -/
def demoModel : Model := [5]

/-- A TrainConfig with the notebook's hyperparameters
(`batch_size = 4`, `lr = 0.1`, `epochs = 1`, `max_nr_batches = -1`,
`shuffle = True`, optimizer `"SGD"`). -/
def demoTC : TrainConfig :=
  { model := demoModel, loss_fn := "loss_fn", optimizer := "SGD",
    batch_size := 4, lr := 1 / 10, epochs := 1, max_nr_batches := -1,
    shuffle := true }

/-- The initial joint state of the tutorial: worker `alice` holding the xor
dataset. -/
def demoSys : SysState := initSys "alice" [("xor", xorDataset)]

/-- The joint state right after the TrainConfig has been sent to alice. -/
def demoSent : SysState := sysStep demoStep demoEval demoSys (.sendConfig demoTC)

/-!
Helper lemmas about association-list lookup and protocol steps.
-/

theorem lookup_updateAssoc_self (h : ℕ) (m v : Model) (l : List (ℕ × Model))
    (hl : List.lookup h l = some v) :
    List.lookup h (updateAssoc h m l) = some m := by
  induction l with
  | nil => simp [List.lookup] at hl
  | cons p rest ih =>
      obtain ⟨k, w⟩ := p
      by_cases hk : h = k
      · subst hk
        simp [updateAssoc, List.lookup]
      · have hk' : k ≠ h := fun e => hk e.symm
        simp only [updateAssoc, if_neg hk', List.lookup,
          beq_false_of_ne hk] at hl ⊢
        exact ih hl

theorem lookup_cons_ne_fst {β : Type} (h k : ℕ) (w : β) (l : List (ℕ × β))
    (hk : h ≠ k) : List.lookup h ((k, w) :: l) = List.lookup h l := by
  simp [List.lookup, beq_false_of_ne hk]

/-- A single worker step never lowers the next free handle. -/
theorem workerStep_nextHandle_mono (step : Model → BaseDataset → Model)
    (evalLoss : Model → BaseDataset → ℚ) (w : WorkerState) (o : Op) :
    w.nextHandle ≤ (workerStep step evalLoss w o).1.nextHandle := by
  cases o with
  | connectOp => exact le_refl _
  | sendConfig tc => exact Nat.le_succ _
  | fit key =>
      cases ha : w.activeHandle with
      | none => simp [workerStep, ha]
      | some h =>
          cases hd : List.lookup key w.datasets with
          | none => simp [workerStep, ha, hd]
          | some d =>
              cases hm : List.lookup h w.models with
              | none => simp [workerStep, ha, hd, hm]
              | some m => simp [workerStep, ha, hd, hm]
  | retrieveModel h =>
      cases hm : List.lookup h w.models with
      | none => simp [workerStep, hm]
      | some m => simp [workerStep, hm]

/-- A stored config at an already-allocated handle survives any single
worker step unchanged. -/
theorem workerStep_configs_stable (step : Model → BaseDataset → Model)
    (evalLoss : Model → BaseDataset → ℚ) (w : WorkerState) (o : Op) (h : ℕ)
    (hh : h < w.nextHandle) :
    List.lookup h (workerStep step evalLoss w o).1.configs =
      List.lookup h w.configs := by
  cases o with
  | connectOp => rfl
  | sendConfig tc =>
      exact lookup_cons_ne_fst h w.nextHandle tc w.configs (Nat.ne_of_lt hh)
  | fit key =>
      cases ha : w.activeHandle with
      | none => simp [workerStep, ha]
      | some h' =>
          cases hd : List.lookup key w.datasets with
          | none => simp [workerStep, ha, hd]
          | some d =>
              cases hm : List.lookup h' w.models with
              | none => simp [workerStep, ha, hd, hm]
              | some m => simp [workerStep, ha, hd, hm]
  | retrieveModel h' =>
      cases hm : List.lookup h' w.models with
      | none => simp [workerStep, hm]
      | some m => simp [workerStep, hm]

/-- Over any run, a config stored at an already-allocated handle is
immutable. -/
theorem runOps_configs_stable (step : Model → BaseDataset → Model)
    (evalLoss : Model → BaseDataset → ℚ) (s : SysState) (ops : List Op) (h : ℕ)
    (hh : h < s.worker.nextHandle) :
    List.lookup h (runOps step evalLoss s ops).worker.configs =
      List.lookup h s.worker.configs := by
  induction ops generalizing s with
  | nil => rfl
  | cons o os ih =>
      have hw : (sysStep step evalLoss s o).worker =
          (workerStep step evalLoss s.worker o).1 := rfl
      have hh' : h < (sysStep step evalLoss s o).worker.nextHandle := by
        rw [hw]
        exact lt_of_lt_of_le hh (workerStep_nextHandle_mono step evalLoss s.worker o)
      calc List.lookup h (runOps step evalLoss (sysStep step evalLoss s o) os).worker.configs
          = List.lookup h (sysStep step evalLoss s o).worker.configs := ih _ hh'
        _ = List.lookup h s.worker.configs := by
            rw [hw]
            exact workerStep_configs_stable step evalLoss s.worker o h hh

/-- Payloads of a non-retrieval operation never carry a model value. -/
theorem workerStep_no_model_payload (step : Model → BaseDataset → Model)
    (evalLoss : Model → BaseDataset → ℚ) (w : WorkerState) (o : Op)
    (ho : o.isRetrieve = false) :
    ∀ p ∈ (workerStep step evalLoss w o).2, ∀ m : Model, p ≠ .modelVal m := by
  cases o with
  | connectOp => simp [workerStep]
  | sendConfig tc => simp [workerStep]
  | fit key =>
      cases ha : w.activeHandle with
      | none => simp [workerStep, ha]
      | some h =>
          cases hd : List.lookup key w.datasets with
          | none => simp [workerStep, ha, hd]
          | some d =>
              cases hm : List.lookup h w.models with
              | none => simp [workerStep, ha, hd, hm]
              | some m => simp [workerStep, ha, hd, hm]
  | retrieveModel h => simp [Op.isRetrieve] at ho

/-- Absorbing a payload that is not a model value leaves the coordinator's
retrieved-models list unchanged. -/
theorem coordAbsorb_retrieved (c : CoordState) (p : Payload)
    (hp : ∀ m : Model, p ≠ .modelVal m) :
    (coordAbsorb c p).retrieved = c.retrieved := by
  cases p with
  | handleVal h => rfl
  | lossVal q => rfl
  | modelVal m => exact absurd rfl (hp m)
  | datasetVal d => rfl

/-- The coordinator's retrieved-models list changes only on the explicit
retrieval request. -/
theorem sysStep_retrieved_stable (step : Model → BaseDataset → Model)
    (evalLoss : Model → BaseDataset → ℚ) (s : SysState) (o : Op)
    (ho : o.isRetrieve = false) :
    (sysStep step evalLoss s o).coord.retrieved = s.coord.retrieved := by
  show ((workerStep step evalLoss s.worker o).2.foldl coordAbsorb s.coord).retrieved
      = s.coord.retrieved
  have hps := workerStep_no_model_payload step evalLoss s.worker o ho
  generalize hl : (workerStep step evalLoss s.worker o).2 = ps at hps
  clear hl
  induction ps generalizing s with
  | nil => rfl
  | cons p rest ih =>
      have h1 : (coordAbsorb s.coord p).retrieved = s.coord.retrieved :=
        coordAbsorb_retrieved s.coord p (hps p (by simp))
      have h2 := ih { s with coord := coordAbsorb s.coord p }
        (fun q hq m => hps q (by simp [hq]) m)
      simp only [List.foldl_cons]
      rw [show (coordAbsorb s.coord p) =
        ({ s with coord := coordAbsorb s.coord p } : SysState).coord from rfl] at h2 ⊢
      rw [h2, h1]

/-- No worker response ever carries a dataset payload. -/
theorem workerStep_no_dataset_payload (step : Model → BaseDataset → Model)
    (evalLoss : Model → BaseDataset → ℚ) (w : WorkerState) (o : Op) :
    ((workerStep step evalLoss w o).2.all fun p => !p.isDataset) = true := by
  cases o with
  | connectOp => rfl
  | sendConfig tc => rfl
  | fit key =>
      cases ha : w.activeHandle with
      | none => simp [workerStep, ha]
      | some h =>
          cases hd : List.lookup key w.datasets with
          | none => simp [workerStep, ha, hd]
          | some d =>
              cases hm : List.lookup h w.models with
              | none => simp [workerStep, ha, hd, hm]
              | some m => simp [workerStep, ha, hd, hm, Payload.isDataset]
  | retrieveModel h =>
      cases hm : List.lookup h w.models with
      | none => simp [workerStep, hm]
      | some m => simp [workerStep, hm, Payload.isDataset]

/-- Absorbing dataset-free payloads adds nothing to the coordinator's
received-datasets list. -/
theorem foldl_coordAbsorb_received (c : CoordState) (ps : List Payload)
    (hp : (ps.all fun p => !p.isDataset) = true) :
    (ps.foldl coordAbsorb c).received = c.received := by
  induction ps generalizing c with
  | nil => rfl
  | cons p rest ih =>
      simp only [List.all_cons, Bool.and_eq_true] at hp
      have h1 : (coordAbsorb c p).received = c.received := by
        cases p with
        | handleVal h => rfl
        | lossVal q => rfl
        | modelVal m => rfl
        | datasetVal d => simp [Payload.isDataset] at hp
      rw [List.foldl_cons, ih (coordAbsorb c p) hp.2, h1]

/-- The dataset-free trace property is preserved by every run. -/
theorem runOps_no_dataset (step : Model → BaseDataset → Model)
    (evalLoss : Model → BaseDataset → ℚ) (s : SysState) (ops : List Op)
    (h1 : (s.trace.all fun p => !p.isDataset) = true)
    (h2 : s.coord.received = []) :
    ((runOps step evalLoss s ops).trace.all fun p => !p.isDataset) = true
    ∧ (runOps step evalLoss s ops).coord.received = [] := by
  induction ops generalizing s with
  | nil => exact ⟨h1, h2⟩
  | cons o os ih =>
      have hw := workerStep_no_dataset_payload step evalLoss s.worker o
      refine ih (sysStep step evalLoss s o) ?_ ?_
      · show ((s.trace ++ (workerStep step evalLoss s.worker o).2).all
            fun p => !p.isDataset) = true
        rw [List.all_append, h1, hw]
        rfl
      · show ((workerStep step evalLoss s.worker o).2.foldl
            coordAbsorb s.coord).received = []
        rw [foldl_coordAbsorb_received s.coord _ hw, h2]

/-- Running `k` fit requests on the active config applies `k` in-place
updates to the model stored at the active handle, leaves the datasets and
the active handle alone, and never touches the coordinator's
retrieved-models list. -/
theorem fit_loop_run (step : Model → BaseDataset → Model)
    (evalLoss : Model → BaseDataset → ℚ) (s : SysState) (key : String)
    (h : ℕ) (d : BaseDataset) (m : Model) (k : ℕ)
    (ha : s.worker.activeHandle = some h)
    (hd : List.lookup key s.worker.datasets = some d)
    (hm : List.lookup h s.worker.models = some m) :
    List.lookup h
        (runOps step evalLoss s (List.replicate k (.fit key))).worker.models
      = some (trainIter step d k m)
    ∧ (runOps step evalLoss s (List.replicate k (.fit key))).worker.activeHandle
      = some h
    ∧ List.lookup key
        (runOps step evalLoss s (List.replicate k (.fit key))).worker.datasets
      = some d
    ∧ (runOps step evalLoss s (List.replicate k (.fit key))).coord.retrieved
      = s.coord.retrieved := by
  induction k generalizing s m with
  | zero => exact ⟨hm, ha, hd, rfl⟩
  | succ k ih =>
      have e1 : (sysStep step evalLoss s (.fit key)).worker.models
          = updateAssoc h (step m d) s.worker.models := by
        simp [sysStep, workerStep, ha, hd, hm]
      have e2 : (sysStep step evalLoss s (.fit key)).worker.activeHandle
          = some h := by
        simp [sysStep, workerStep, ha, hd, hm]
      have e3 : (sysStep step evalLoss s (.fit key)).worker.datasets
          = s.worker.datasets := by
        simp [sysStep, workerStep, ha, hd, hm]
      have e4 : (sysStep step evalLoss s (.fit key)).coord.retrieved
          = s.coord.retrieved :=
        sysStep_retrieved_stable step evalLoss s (.fit key) rfl
      have hm1 : List.lookup h (sysStep step evalLoss s (.fit key)).worker.models
          = some (step m d) := by
        rw [e1]
        exact lookup_updateAssoc_self h (step m d) m s.worker.models hm
      have hd1 : List.lookup key
          (sysStep step evalLoss s (.fit key)).worker.datasets = some d := by
        rw [e3]
        exact hd
      have hrec := ih (sysStep step evalLoss s (.fit key)) (step m d) e2 hd1 hm1
      rw [List.replicate_succ]
      exact ⟨hrec.1, hrec.2.1, hrec.2.2.1, hrec.2.2.2.trans e4⟩

/-!
Claim theorems.
-/

/-- C1: for every fit request issued with a dataset key held by the worker
(and an active TrainConfig with its model in place), the call returns
exactly one scalar loss — the payload list is `[lossVal ...]` and the
coordinator's loss log grows by that one scalar. -/
theorem fit_returns_scalar_loss (step : Model → BaseDataset → Model)
    (evalLoss : Model → BaseDataset → ℚ) (s : SysState) (key : String)
    (h : ℕ) (m : Model) (d : BaseDataset)
    (ha : s.worker.activeHandle = some h)
    (hm : List.lookup h s.worker.models = some m)
    (hd : List.lookup key s.worker.datasets = some d) :
    (workerStep step evalLoss s.worker (.fit key)).2
        = [Payload.lossVal (evalLoss m d)]
    ∧ (sysStep step evalLoss s (.fit key)).coord.losses
        = s.coord.losses ++ [evalLoss m d] := by
  constructor
  · simp [workerStep, ha, hd, hm]
  · show ((workerStep step evalLoss s.worker (.fit key)).2.foldl
        coordAbsorb s.coord).losses = s.coord.losses ++ [evalLoss m d]
    simp [workerStep, ha, hd, hm, coordAbsorb]

/-- Witness for C1: the tutorial state — alice holds the `xor` dataset and
the sent TrainConfig is active. -/
theorem fit_returns_scalar_loss_witness :
    (demoSent.worker.activeHandle = some 0
      ∧ List.lookup 0 demoSent.worker.models = some demoModel
      ∧ List.lookup "xor" demoSent.worker.datasets = some xorDataset)
    ∧ ((workerStep demoStep demoEval demoSent.worker (.fit "xor")).2
        = [Payload.lossVal (demoEval demoModel xorDataset)]
      ∧ (sysStep demoStep demoEval demoSent (.fit "xor")).coord.losses
        = demoSent.coord.losses ++ [demoEval demoModel xorDataset]) :=
  ⟨⟨rfl, rfl, rfl⟩,
    fit_returns_scalar_loss demoStep demoEval demoSent "xor" 0 demoModel
      xorDataset rfl rfl rfl⟩

/-- C2: for every unreachable host/port pair, constructing the websocket
client proxy fails with a connection error naming that endpoint, returned
directly to the caller — no retry, no fallback value. -/
theorem connect_unreachable_fails (running : String → ℕ → Bool)
    (host hook : String) (verbose : Bool) (id : String) (port : ℕ)
    (h : running host port = false) :
    mkWebsocketClientWorker running host hook verbose id port
      = Except.error { host := host, port := port } := by
  simp [mkWebsocketClientWorker, h]

/-- Witness for C2: no worker runs anywhere, connecting to
`localhost:8777` fails. -/
theorem connect_unreachable_fails_witness :
    ((fun (_ : String) (_ : ℕ) => false) "localhost" 8777 = false)
    ∧ mkWebsocketClientWorker (fun _ _ => false) "localhost" "hook" false
        "alice" 8777
      = Except.error { host := "localhost", port := 8777 } :=
  ⟨rfl, connect_unreachable_fails (fun _ _ => false) "localhost" "hook" false
      "alice" 8777 rfl⟩

/-- C6: TrainConfig construction succeeds for arbitrary hyperparameter
values (no deep validation) when the required model and loss-function
fields are present; with `max_nr_batches` omitted, the field defaults to
the sentinel `-1`, which disables the per-call step cap. -/
theorem trainconfig_create_no_deep_validation (m : Model) (l : LossFn)
    (opt : String) (bs : ℤ) (lr : ℚ) (ep : ℤ) (sh : Bool) :
    TrainConfig.create (some m) (some l) opt bs lr ep none sh
        = some { model := m, loss_fn := l, optimizer := opt, batch_size := bs,
                 lr := lr, epochs := ep, max_nr_batches := -1, shuffle := sh }
    ∧ TrainConfig.batchCap
        { model := m, loss_fn := l, optimizer := opt, batch_size := bs,
          lr := lr, epochs := ep, max_nr_batches := -1, shuffle := sh }
        = none := by
  refine ⟨rfl, ?_⟩
  simp [TrainConfig.batchCap]

/-- C7: sending a TrainConfig a second time to the same worker allocates a
distinct fresh handle; both handles reach the coordinator, each resolves to
its own stored config, and the first handle's model entry is untouched by
the second send. -/
theorem resend_independent_handles (step : Model → BaseDataset → Model)
    (evalLoss : Model → BaseDataset → ℚ) (s : SysState) (tc tc' : TrainConfig) :
    s.worker.nextHandle ≠ s.worker.nextHandle + 1
    ∧ (sysStep step evalLoss (sysStep step evalLoss s (.sendConfig tc))
        (.sendConfig tc')).coord.handles
      = s.coord.handles ++ [s.worker.nextHandle, s.worker.nextHandle + 1]
    ∧ List.lookup s.worker.nextHandle
        (sysStep step evalLoss (sysStep step evalLoss s (.sendConfig tc))
          (.sendConfig tc')).worker.configs = some tc
    ∧ List.lookup (s.worker.nextHandle + 1)
        (sysStep step evalLoss (sysStep step evalLoss s (.sendConfig tc))
          (.sendConfig tc')).worker.configs = some tc'
    ∧ List.lookup s.worker.nextHandle
        (sysStep step evalLoss (sysStep step evalLoss s (.sendConfig tc))
          (.sendConfig tc')).worker.models
      = List.lookup s.worker.nextHandle
          (sysStep step evalLoss s (.sendConfig tc)).worker.models := by
  refine ⟨Nat.ne_of_lt (Nat.lt_succ_self _), ?_, ?_, ?_, ?_⟩
  · simp [sysStep, workerStep, coordAbsorb]
  · rw [show (sysStep step evalLoss (sysStep step evalLoss s (.sendConfig tc))
        (.sendConfig tc')).worker.configs
      = (s.worker.nextHandle + 1, tc') :: (s.worker.nextHandle, tc)
          :: s.worker.configs from rfl]
    rw [lookup_cons_ne_fst _ _ _ _ (Nat.ne_of_lt (Nat.lt_succ_self _))]
    simp [List.lookup]
  · rw [show (sysStep step evalLoss (sysStep step evalLoss s (.sendConfig tc))
        (.sendConfig tc')).worker.configs
      = (s.worker.nextHandle + 1, tc') :: (s.worker.nextHandle, tc)
          :: s.worker.configs from rfl]
    simp [List.lookup]
  · rw [show (sysStep step evalLoss (sysStep step evalLoss s (.sendConfig tc))
        (.sendConfig tc')).worker.models
      = (s.worker.nextHandle + 1, tc'.model)
          :: (sysStep step evalLoss s (.sendConfig tc)).worker.models from rfl]
    exact lookup_cons_ne_fst _ _ _ _ (Nat.ne_of_lt (Nat.lt_succ_self _))

/-- C8 counterexample: the notebook's connection call also passes the
`hook` option, which is not among the four options the claim recognizes. -/
theorem connection_options_claim_refuted :
    "hook" ∈ websocketClientCallOptions
    ∧ "hook" ∉ claimedConnectionOptions := by decide

/-- C8 (amended): the options the coordinator's connection call uses are
exactly {host, port, id, verbose, hook}. -/
theorem connection_options_amended :
    websocketClientCallOptions.Perm amendedConnectionOptions := by decide

/-- C9: over every sequence of coordinator operations (connect, send
TrainConfig, fit, retrieve model), no payload sent to the coordinator ever
carries a dataset, and the coordinator's received-datasets list stays
empty — its state holds only proxy handles, loss scalars and retrieved
models. -/
theorem dataset_never_transmitted (step : Model → BaseDataset → Model)
    (evalLoss : Model → BaseDataset → ℚ) (id : String)
    (ds : List (String × BaseDataset)) (ops : List Op) :
    ((runOps step evalLoss (initSys id ds) ops).trace.all
        fun p => !p.isDataset) = true
    ∧ (runOps step evalLoss (initSys id ds) ops).coord.received = [] :=
  runOps_no_dataset step evalLoss (initSys id ds) ops rfl rfl

/-- C3: the send operation answers with only an opaque numeric handle (the
coordinator never receives the live config object); from then on the stored
config at that handle is immutable under every later operation sequence;
and the coordinator's retrieved-results list is unchanged by any operation
that is not the explicit retrieval request. -/
theorem send_opaque_handle_immutable (step : Model → BaseDataset → Model)
    (evalLoss : Model → BaseDataset → ℚ) (s : SysState) (tc : TrainConfig)
    (ops : List Op) (o : Op) (ho : o.isRetrieve = false) :
    (workerStep step evalLoss s.worker (.sendConfig tc)).2
        = [Payload.handleVal s.worker.nextHandle]
    ∧ List.lookup s.worker.nextHandle
        (runOps step evalLoss (sysStep step evalLoss s (.sendConfig tc))
          ops).worker.configs
      = some tc
    ∧ (sysStep step evalLoss
        (runOps step evalLoss (sysStep step evalLoss s (.sendConfig tc)) ops)
        o).coord.retrieved
      = (runOps step evalLoss (sysStep step evalLoss s (.sendConfig tc))
          ops).coord.retrieved := by
  refine ⟨rfl, ?_, sysStep_retrieved_stable step evalLoss _ o ho⟩
  have h1 : List.lookup s.worker.nextHandle
      (sysStep step evalLoss s (.sendConfig tc)).worker.configs = some tc := by
    show List.lookup s.worker.nextHandle
        ((s.worker.nextHandle, tc) :: s.worker.configs) = some tc
    simp [List.lookup]
  have h2 : s.worker.nextHandle
      < (sysStep step evalLoss s (.sendConfig tc)).worker.nextHandle :=
    Nat.lt_succ_self _
  rw [runOps_configs_stable step evalLoss _ ops _ h2, h1]

/-- Witness for C3: the tutorial run — send the TrainConfig to alice, then
a fit on `xor`; a further fit (not a retrieval) returns no results. -/
theorem send_opaque_handle_immutable_witness :
    (Op.fit "xor").isRetrieve = false
    ∧ ((workerStep demoStep demoEval demoSys.worker (.sendConfig demoTC)).2
        = [Payload.handleVal demoSys.worker.nextHandle]
      ∧ List.lookup demoSys.worker.nextHandle
          (runOps demoStep demoEval
            (sysStep demoStep demoEval demoSys (.sendConfig demoTC))
            [.fit "xor"]).worker.configs
        = some demoTC
      ∧ (sysStep demoStep demoEval
          (runOps demoStep demoEval
            (sysStep demoStep demoEval demoSys (.sendConfig demoTC))
            [.fit "xor"])
          (.fit "xor")).coord.retrieved
        = (runOps demoStep demoEval
            (sysStep demoStep demoEval demoSys (.sendConfig demoTC))
            [.fit "xor"]).coord.retrieved) :=
  ⟨rfl, send_opaque_handle_immutable demoStep demoEval demoSys demoTC
      [.fit "xor"] (.fit "xor") rfl⟩

/-- C4: after `k ≥ 1` fit calls have updated the remote model in place,
the model at the handle is the initial model with all `k` updates applied;
nothing was pushed to the coordinator during the fits; the explicit
retrieval request answers with exactly that updated model and appends it to
the coordinator's retrieved models; and, in the notebook's recorded run,
the retrieved model's forward evaluation on the xor data differs from the
pre-training predictions. -/
theorem retrieve_reflects_all_updates (step : Model → BaseDataset → Model)
    (evalLoss : Model → BaseDataset → ℚ) (s : SysState) (key : String)
    (h : ℕ) (d : BaseDataset) (m : Model) (k : ℕ) (hk : 1 ≤ k)
    (ha : s.worker.activeHandle = some h)
    (hd : List.lookup key s.worker.datasets = some d)
    (hm : List.lookup h s.worker.models = some m) :
    List.lookup h
        (runOps step evalLoss s (List.replicate k (.fit key))).worker.models
      = some (trainIter step d k m)
    ∧ (runOps step evalLoss s (List.replicate k (.fit key))).coord.retrieved
      = s.coord.retrieved
    ∧ (workerStep step evalLoss
        (runOps step evalLoss s (List.replicate k (.fit key))).worker
        (.retrieveModel h)).2
      = [Payload.modelVal (trainIter step d k m)]
    ∧ (sysStep step evalLoss
        (runOps step evalLoss s (List.replicate k (.fit key)))
        (.retrieveModel h)).coord.retrieved
      = s.coord.retrieved ++ [trainIter step d k m]
    ∧ recordedPredsBefore ≠ recordedPredsAfter := by
  obtain ⟨g1, g2, g3, g4⟩ :=
    fit_loop_run step evalLoss s key h d m k ha hd hm
  refine ⟨g1, g4, ?_, ?_, ?_⟩
  · simp [workerStep, g1]
  · show ((workerStep step evalLoss
        (runOps step evalLoss s (List.replicate k (.fit key))).worker
        (.retrieveModel h)).2.foldl coordAbsorb
        (runOps step evalLoss s (List.replicate k (.fit key))).coord).retrieved
      = s.coord.retrieved ++ [trainIter step d k m]
    simp [workerStep, g1, coordAbsorb, g4]
  · simp only [recordedPredsBefore, recordedPredsAfter, ne_eq,
      List.cons.injEq, not_and]
    norm_num

/-- Witness for C4: two fit calls on alice's `xor` dataset after the send,
then the retrieval. -/
theorem retrieve_reflects_all_updates_witness :
    (1 ≤ 2
      ∧ demoSent.worker.activeHandle = some 0
      ∧ List.lookup "xor" demoSent.worker.datasets = some xorDataset
      ∧ List.lookup 0 demoSent.worker.models = some demoModel)
    ∧ (List.lookup 0
        (runOps demoStep demoEval demoSent
          (List.replicate 2 (.fit "xor"))).worker.models
      = some (trainIter demoStep xorDataset 2 demoModel)
    ∧ (runOps demoStep demoEval demoSent
        (List.replicate 2 (.fit "xor"))).coord.retrieved
      = demoSent.coord.retrieved
    ∧ (workerStep demoStep demoEval
        (runOps demoStep demoEval demoSent
          (List.replicate 2 (.fit "xor"))).worker
        (.retrieveModel 0)).2
      = [Payload.modelVal (trainIter demoStep xorDataset 2 demoModel)]
    ∧ (sysStep demoStep demoEval
        (runOps demoStep demoEval demoSent (List.replicate 2 (.fit "xor")))
        (.retrieveModel 0)).coord.retrieved
      = demoSent.coord.retrieved ++ [trainIter demoStep xorDataset 2 demoModel]
    ∧ recordedPredsBefore ≠ recordedPredsAfter) :=
  ⟨⟨by decide, rfl, rfl, rfl⟩,
    retrieve_reflects_all_updates demoStep demoEval demoSent "xor" 0
      xorDataset demoModel 2 (by decide) rfl rfl rfl⟩

/-- C10: the loss a fit call returns is evaluated on the model as it stood
at the start of the call — the returned payload carries the current
model's loss while the stored model advances by one update.  Accordingly,
in the notebook's recorded run the first fit loss (as displayed to four
decimals) equals the locally computed pre-training loss, and the retrieved
post-training model's locally computed loss lies below the loss returned
by the last fit call. -/
theorem fit_loss_pre_update (step : Model → BaseDataset → Model)
    (evalLoss : Model → BaseDataset → ℚ) (s : SysState) (key : String)
    (h : ℕ) (m : Model) (d : BaseDataset)
    (ha : s.worker.activeHandle = some h)
    (hm : List.lookup h s.worker.models = some m)
    (hd : List.lookup key s.worker.datasets = some d) :
    (workerStep step evalLoss s.worker (.fit key)).2
        = [Payload.lossVal (evalLoss m d)]
    ∧ List.lookup h (workerStep step evalLoss s.worker (.fit key)).1.models
        = some (step m d)
    ∧ display4 preTrainingLoss = recordedFitLosses.getD 0 0
    ∧ postTrainingLoss < recordedFitLosses.getD 9 0 := by
  refine ⟨?_, ?_, ?_, ?_⟩
  · simp [workerStep, ha, hd, hm]
  · have e1 : (workerStep step evalLoss s.worker (.fit key)).1.models
        = updateAssoc h (step m d) s.worker.models := by
      simp [workerStep, ha, hd, hm]
    rw [e1]
    exact lookup_updateAssoc_self h (step m d) m s.worker.models hm
  · norm_num [display4, preTrainingLoss, recordedFitLosses]
  · norm_num [postTrainingLoss, recordedFitLosses]

/-- Witness for C10: the first fit of the tutorial run. -/
theorem fit_loss_pre_update_witness :
    (demoSent.worker.activeHandle = some 0
      ∧ List.lookup 0 demoSent.worker.models = some demoModel
      ∧ List.lookup "xor" demoSent.worker.datasets = some xorDataset)
    ∧ ((workerStep demoStep demoEval demoSent.worker (.fit "xor")).2
        = [Payload.lossVal (demoEval demoModel xorDataset)]
      ∧ List.lookup 0
          (workerStep demoStep demoEval demoSent.worker (.fit "xor")).1.models
        = some (demoStep demoModel xorDataset)
      ∧ display4 preTrainingLoss = recordedFitLosses.getD 0 0
      ∧ postTrainingLoss < recordedFitLosses.getD 9 0) :=
  ⟨⟨rfl, rfl, rfl⟩,
    fit_loss_pre_update demoStep demoEval demoSent "xor" 0 demoModel
      xorDataset rfl rfl rfl⟩

end PySyftTrainConfig
